import Mathlib

/-!
# Verification of the VoiceEnabledTroubleShooter frontend and knowledge base

Shallow embedding of the repository's two artifacts:

* the knowledge-base document store under
  `troubleshoot-agent/knowledge_base/docs/` (front matter and the
  Related Issues link lists), and
* the client session controller `troubleshoot-agent/static/app.js`
  (the variant with `getOrCreateSessionId`, `setupListeners` and
  `bindDom`, whose line numbers the claims cite).

JavaScript `null`/`undefined` string values are modelled as
`Option String`; JS truthiness of such a value (`if (x)`, `x || y`)
is `isTruthy` / `jsOr` below, which treat both `null`/`undefined`
and the empty string as falsy, exactly as JS does.
-/

namespace Aria

/-- JS truthiness of a nullable string: `null`/`undefined` and `""` are falsy. -/
def isTruthy : Option String → Bool
  | none => false
  | some s => !(s == "")

/-- JS `a || b` on nullable strings. -/
def jsOr (a b : Option String) : Option String :=
  if isTruthy a then a else b

/-- JS `a || b` where the fallback is a plain string (e.g. `data.text || ''`). -/
def jsOrElse (a : Option String) (b : String) : String :=
  if isTruthy a then a.getD "" else b

/-- JS `String.prototype.trim()`: strip leading and trailing whitespace
(modelled on the character list so that it evaluates by reduction). -/
def jsTrim (s : String) : String :=
  ⟨((s.data.dropWhile Char.isWhitespace).reverse.dropWhile Char.isWhitespace).reverse⟩

/-- JS `s.startsWith(p)`. -/
def strStartsWith (s p : String) : Bool :=
  p.data.isPrefixOf s.data

/-- JS `s.endsWith(p)` (used to express the suffix regex test). -/
def strEndsWith (s p : String) : Bool :=
  p.data.isSuffixOf s.data

/-- ASCII lowercasing, for the case-insensitive `/i` regex flag. -/
def strToLower (s : String) : String :=
  ⟨s.data.map Char.toLower⟩

/-! ## Knowledge-base document store

Each document's front matter (`title`, `category`, `severity`, `updated`,
`has_images`, `image_urls`) and its `## Related Issues` entries are
transcribed verbatim from the files under
`troubleshoot-agent/knowledge_base/docs/`.  Some documents of the store
were delivered concatenated into other files or with their filename
stripped; their filenames are reconstructed from their `title:` front
matter and from the cross-reference graph (e.g. the document titled
"Storage Management" is the `storage_management.md` that `storage_full.md`
and the App Crashes Advanced document link to). -/

/-- A `## Related Issues` entry: a filename, optionally suffixed with a
parenthetical reason, e.g. `battery_drain_basics.md (brightness affects battery)`. -/
structure RelatedRef where
  file : String
  reason : Option String
deriving Repr, DecidableEq

/-- A knowledge-base document: front-matter fields plus the Related Issues list. -/
structure KBDoc where
  filename : String
  title : String
  category : String
  severity : String
  updated : String
  has_images : Bool
  image_urls : List String
  related_issues : List RelatedRef
deriving Repr, DecidableEq

/-- Document `knowledge_base/docs/battery_drain_basics.md` (document titled "Battery Drain Basics"). -/
def battery_drain_basics : KBDoc :=
  { filename := "battery_drain_basics.md"
    title := "Battery Drain Basics"
    category := "battery"
    severity := "low"
    updated := "2024-01-15"
    has_images := true
    image_urls := ["https://support.apple.com/library/content/dam/edam/applecare/images/en_US/iphone/iphone-14-pro-battery-settings.png"]
    related_issues := [⟨"battery_drain_advanced.md", none⟩, ⟨"storage_full.md", none⟩] }

/-- Document `knowledge_base/docs/battery_drain_advanced.md`. -/
def battery_drain_advanced : KBDoc :=
  { filename := "battery_drain_advanced.md"
    title := "Battery Drain Advanced"
    category := "battery"
    severity := "medium"
    updated := "2024-01-15"
    has_images := false
    image_urls := []
    related_issues := [⟨"battery_drain_basics.md", none⟩, ⟨"overheating_causes.md", none⟩] }

/-- Document `knowledge_base/docs/wifi_connection_issues.md` (document titled "Wi-Fi Connection Issues"). -/
def wifi_connection_issues : KBDoc :=
  { filename := "wifi_connection_issues.md"
    title := "Wi-Fi Connection Issues"
    category := "wifi"
    severity := "medium"
    updated := "2024-01-20"
    has_images := true
    image_urls := ["https://support.apple.com/library/content/dam/edam/applecare/images/en_US/iphone/iphone-wi-fi-settings.png"]
    related_issues := [⟨"wifi_slow_speeds.md", none⟩, ⟨"bluetooth_issues.md", none⟩] }

/-- Document `knowledge_base/docs/wifi_slow_speeds.md`. -/
def wifi_slow_speeds : KBDoc :=
  { filename := "wifi_slow_speeds.md"
    title := "Wi-Fi Slow Speeds"
    category := "wifi"
    severity := "low"
    updated := "2024-01-20"
    has_images := false
    image_urls := []
    related_issues := [⟨"wifi_connection_issues.md", none⟩] }

/-- Document `knowledge_base/docs/storage_full.md`. -/
def storage_full : KBDoc :=
  { filename := "storage_full.md"
    title := "Storage Full"
    category := "storage"
    severity := "high"
    updated := "2024-01-22"
    has_images := true
    image_urls := ["https://support.apple.com/library/content/dam/edam/applecare/images/en_US/iphone/iphone-storage-settings.png"]
    related_issues := [⟨"storage_management.md", none⟩, ⟨"app_crashes_common.md", none⟩] }

/-- Document `knowledge_base/docs/storage_management.md` (document titled "Storage Management"). -/
def storage_management : KBDoc :=
  { filename := "storage_management.md"
    title := "Storage Management"
    category := "storage"
    severity := "low"
    updated := "2024-01-22"
    has_images := false
    image_urls := []
    related_issues := [⟨"storage_full.md", none⟩] }

/-- Document `knowledge_base/docs/bluetooth_issues.md` (document titled "Bluetooth Issues"). -/
def bluetooth_issues : KBDoc :=
  { filename := "bluetooth_issues.md"
    title := "Bluetooth Issues"
    category := "bluetooth"
    severity := "medium"
    updated := "2024-01-12"
    has_images := false
    image_urls := []
    related_issues := [⟨"wifi_connection_issues.md", none⟩, ⟨"wifi_slow_speeds.md", none⟩] }

/-- Document `knowledge_base/docs/screen_issues.md` (document titled "Screen Issues"). -/
def screen_issues : KBDoc :=
  { filename := "screen_issues.md"
    title := "Screen Issues"
    category := "screen"
    severity := "medium"
    updated := "2024-01-08"
    has_images := false
    image_urls := []
    related_issues := [⟨"battery_drain_basics.md", some "brightness affects battery"⟩] }

/-- Document `knowledge_base/docs/overheating_causes.md`. -/
def overheating_causes : KBDoc :=
  { filename := "overheating_causes.md"
    title := "Overheating Causes"
    category := "overheating"
    severity := "medium"
    updated := "2024-01-10"
    has_images := false
    image_urls := []
    related_issues := [⟨"overheating_fixes.md", none⟩, ⟨"battery_drain_advanced.md", none⟩] }

/-- Document `knowledge_base/docs/overheating_fixes.md`. -/
def overheating_fixes : KBDoc :=
  { filename := "overheating_fixes.md"
    title := "Overheating Fixes"
    category := "overheating"
    severity := "medium"
    updated := "2024-01-10"
    has_images := false
    image_urls := []
    related_issues := [⟨"overheating_causes.md", none⟩, ⟨"app_crashes_common.md", none⟩] }

/-- Document `knowledge_base/docs/app_crashes_common.md`. -/
def app_crashes_common : KBDoc :=
  { filename := "app_crashes_common.md"
    title := "App Crashes Common"
    category := "crashes"
    severity := "medium"
    updated := "2024-01-18"
    has_images := false
    image_urls := []
    related_issues := [⟨"app_crashes_advanced.md", none⟩, ⟨"storage_full.md", none⟩] }

/-- Document `knowledge_base/docs/app_crashes_advanced.md` (document titled "App Crashes Advanced"). -/
def app_crashes_advanced : KBDoc :=
  { filename := "app_crashes_advanced.md"
    title := "App Crashes Advanced"
    category := "crashes"
    severity := "high"
    updated := "2024-01-18"
    has_images := false
    image_urls := []
    related_issues := [⟨"app_crashes_common.md", none⟩, ⟨"storage_management.md", none⟩] }

/-- The knowledge-base store: every troubleshooting document in the repository. -/
def knowledgeBase : List KBDoc :=
  [ battery_drain_basics, battery_drain_advanced,
    wifi_connection_issues, wifi_slow_speeds,
    storage_full, storage_management,
    bluetooth_issues, screen_issues,
    overheating_causes, overheating_fixes,
    app_crashes_common, app_crashes_advanced ]

/-! ## Client session controller (`static/app.js`)

The model below embeds the second (authoritative) variant of `app.js` —
the one with `getOrCreateSessionId`, `setupListeners` and `bindDom` — in
the standard UI build where `bindDom` found all elements (the spec treats
a missing element as a configuration variant, and the claims describe the
full build).  DOM side effects are modelled as explicit state: the
conversation transcript is a list of rendered messages, the context panel
holds the three lists `updateContext` writes, and the voice status line is
a string.  The transient typing indicator (`appendTyping`/`removeTyping`)
is always removed before a flow completes and is not part of the state.

`sources` values are modelled as strings: that is the form the session
history, `updateContext` (which calls `s.startsWith` directly) and the
spec's scenarios use.  (`appendAriaMessage` additionally tolerates
`{url, title}` objects; that branch is not exercised by any claim.) -/

/-- A rendered source pill / context-panel source link: `href` and label. -/
structure Pill where
  href : String
  label : String
deriving Repr, DecidableEq

/-- A message rendered into the `conversation` transcript. -/
inductive Msg where
  /-- `appendUserMessage(text, imageUrl)`: a user bubble, optionally with an
  attached-image preview. -/
  | user (text : String) (imageUrl : Option String)
  /-- `appendAriaMessage(text, sources, audioBase64)`: an assistant bubble with
  source pills and optional audio player. -/
  | aria (text : String) (pills : List Pill) (audioBase64 : Option String)
deriving Repr, DecidableEq

/-- Source-pill rendering of `appendAriaMessage` for a string source `s`:
`href = s` when it starts with `"http"`, else the inert `"#"`; the label is
`s` itself.  (`updateContext` renders its `sources-list` links the same way.) -/
def renderPill (s : String) : Pill :=
  ⟨if strStartsWith s "http" then s else "#", s⟩

/-- The fixed opening message shown by `showOpeningMessage`. -/
def openingMessageText : String :=
  "Hello, I'm ARIA. What iPhone issue can I help you troubleshoot today?"

/-- Calling `showOpeningMessage()` appends `appendAriaMessage(msg, [], null)`. -/
def openingMessage : Msg := .aria openingMessageText [] none

/-- One turn of the server-side history returned by `GET /api/session/{id}`. -/
structure HistoryTurn where
  role : String
  content : String
deriving Repr, DecidableEq

/-- How `init` replays one history turn:
`m.role === 'user' ? appendUserMessage(m.content) : appendAriaMessage(m.content, [])`. -/
def renderTurn (m : HistoryTurn) : Msg :=
  if m.role == "user" then .user m.content none else .aria m.content [] none

/-- The transcript `init` renders from the fetched session response
(`session.history`; `none` models an absent `history` field).  Mirrors
`if (session.history && session.history.length > 0) { …forEach… } else
showOpeningMessage()`. -/
def initTranscript : Option (List HistoryTurn) → List Msg
  | some h => if h.length > 0 then h.map renderTurn else [openingMessage]
  | none => [openingMessage]

/-- A `steps` entry of the chat response: `{phase, text}`, either field
possibly absent. -/
structure StepEntry where
  phase : Option String
  text : Option String
deriving Repr, DecidableEq

/-- The JSON body of a successful `POST /api/chat` response.  `sources` is a
plain list (an absent field and `[]` behave identically everywhere:
both `data.sources || []` and the `data.sources.length` guards treat them
the same).  `steps` keeps absence distinct, since `updateContext` clears the
process-steps panel for `[]` but leaves it untouched when the field is absent. -/
structure ChatResponse where
  text : Option String
  sources : List String
  steps : Option (List StepEntry)
  audio_base64 : Option String
deriving Repr, DecidableEq

/-- The JSON body `apiChat` posts to `POST /api/chat`:
`{ session_id: sessionId, message, image_base64 }` (an `image_base64` of
`none` models the `undefined` that `JSON.stringify` drops). -/
structure ChatRequest where
  session_id : String
  message : String
  image_base64 : Option String
deriving Repr, DecidableEq

/-- Phase prefix of `updateContext`:
`(step.phase === 'think' ? 'Think' : step.phase === 'act' ? 'Act' : 'Observe') + ': '`. -/
def phasePrefix (phase : Option String) : String :=
  if phase == some "think" then "Think: "
  else if phase == some "act" then "Act: "
  else "Observe: "

/-- The text content of one rendered process-step `li`:
`phaseLabel + (step.text || '')`. -/
def renderStep (st : StepEntry) : String :=
  phasePrefix st.phase ++ jsOrElse st.text ""

/-- Expression `data.text.slice(0, 60) + (data.text.length > 60 ? '…' : '')` (the
`steps-list` summary line; JS indexes UTF-16 units, modelled on characters). -/
def truncate60 (t : String) : String :=
  if t.data.length > 60 then (⟨t.data.take 60⟩ : String) ++ "…" else t

/-- The context panel `updateContext` writes: the `process-steps-list` items,
the `sources-list` links and the `steps-list` summary items. -/
structure ContextPanel where
  processSteps : List String
  sourceLinks : List Pill
  stepsSummary : List String
deriving Repr, DecidableEq

/-- Function `updateContext(data)`: replaces the process-steps panel when `data.steps`
is (an array) present, replaces the sources links when `data.sources` is
non-empty, and appends a truncated summary line when `data.text` is truthy. -/
def updateContext (panel : ContextPanel) (data : ChatResponse) : ContextPanel :=
  let p1 := match data.steps with
    | some l => { panel with processSteps := l.map renderStep }
    | none => panel
  let p2 := if data.sources.length > 0
    then { p1 with sourceLinks := data.sources.map renderPill }
    else p1
  if isTruthy data.text
    then { p2 with stepsSummary := p2.stepsSummary ++ [truncate60 (data.text.getD "")] }
    else p2

/-- The controller state `sendMessage` reads and writes: the remembered image
(`currentImageBase64`), the text box (`textInput.value`), the transcript,
the voice status line and the context panel. -/
structure UiState where
  remembered : Option String
  inputValue : String
  transcript : List Msg
  status : String
  panel : ContextPanel
deriving Repr, DecidableEq

/-- The generic failure bubble appended when `apiChat` rejects. -/
def apologyText : String := "Sorry, something went wrong. Please try again."

/-- Function `sendMessage(text, imageBase64)` with the chat call's outcome made
explicit (`response` is what `await apiChat(...)` produced: `.ok` the parsed
JSON, `.error` the thrown message).  Returns the state after the handler
finishes together with the request that was posted (`none` when the
blank-input guard returned early and no HTTP request was issued).

Mirrors the source line by line: the guard
`if (!text.trim() && !imageBase64) return`; `msg = text.trim() || '(Sent an
image)'`; the preview URL and `currentImageBase64 = imageBase64` under
`if (imageBase64)`; `appendUserMessage`; clearing the text box; the request
image `imageBase64 || currentImageBase64 || undefined`; then on success
`appendAriaMessage(data.text || '', data.sources || [], data.audio_base64 ||
null)`, `updateContext(data)`, `currentImageBase64 = null`, and on failure
the apology bubble with `currentImageBase64` left as it was.  `setVoiceStatus`
ends at `''` on both paths (it is `'Thinking...'` while the call is
outstanding). -/
def sendMessage (sessionId text : String) (imageBase64 : Option String)
    (response : Except String ChatResponse) (st : UiState) :
    UiState × Option ChatRequest :=
  if jsTrim text == "" && !(isTruthy imageBase64) then (st, none)
  else
    let msg := if jsTrim text == "" then "(Sent an image)" else jsTrim text
    let imageUrl : Option String :=
      if isTruthy imageBase64
        then some ("data:image/png;base64," ++ imageBase64.getD "")
        else none
    let rem1 := if isTruthy imageBase64 then imageBase64 else st.remembered
    let st1 := { st with
      transcript := st.transcript ++ [Msg.user msg imageUrl]
      inputValue := ""
      remembered := rem1
      status := "Thinking..." }
    let req : ChatRequest := ⟨sessionId, msg, jsOr imageBase64 (jsOr rem1 none)⟩
    match response with
    | .ok data =>
        ({ st1 with
            transcript := st1.transcript ++
              [Msg.aria (jsOrElse data.text "") (data.sources.map renderPill)
                (jsOr data.audio_base64 none)]
            panel := updateContext st1.panel data
            remembered := none
            status := "" }, some req)
    | .error _ =>
        ({ st1 with
            transcript := st1.transcript ++ [Msg.aria apologyText [] none]
            status := "" }, some req)

/-- The argument the send-button / Enter handlers pass to `sendMessage`:
`sendMessage(textInput.value.trim(), null)`. -/
def typedSendArg (inputValue : String) : String := jsTrim inputValue

/-! ### Voice recording -/

/-- The JSON body of a successful `POST /api/transcribe` response. -/
structure TranscribeResponse where
  text : Option String
deriving Repr, DecidableEq

/-- The decision the `mediaRecorder.onstop` handler makes once the
transcription call settles: the text it passes on to `sendMessage(text, null)`
(if any) and the successive `setVoiceStatus` values it writes, in order.
On failure the handler writes `'Transcription failed.'` in the catch block
and then the unconditional trailing `setVoiceStatus('')` clears the line.
When a submission happens, `sendMessage`'s own status updates
(`'Thinking...'`, `''`) occur between the two values listed. -/
def onstopOutcome (result : Except String TranscribeResponse) :
    Option String × List String :=
  match result with
  | .error _ => (none, ["Transcribing...", "Transcription failed.", ""])
  | .ok r =>
      if isTruthy r.text
        then (some (r.text.getD ""), ["Transcribing...", ""])
        else (none, ["Transcribing...", ""])

/-- The events the `hold-speak` control can receive. -/
inductive HoldEvent where
  | mousedown | mouseup | mouseleave | touchstart | touchend | touchcancel
deriving Repr, DecidableEq

/-- The two handlers `setupListeners` can attach to `hold-speak`. -/
inductive HoldAction where
  | startRec | stopRec
deriving Repr, DecidableEq

/-- The listener bindings `setupListeners` registers on `hold-speak`:
`mousedown`/`touchstart` start recording, `mouseup`/`mouseleave`/`touchend`
stop it.  No listener is bound for any other event (in particular none for
`touchcancel`). -/
def holdSpeakHandler : HoldEvent → Option HoldAction
  | .mousedown => some .startRec
  | .mouseup => some .stopRec
  | .mouseleave => some .stopRec
  | .touchstart => some .startRec
  | .touchend => some .stopRec
  | .touchcancel => none

/-- Recorder/microphone state: whether `mediaRecorder` is active and whether
the `stream`'s media tracks are live (microphone held). -/
structure RecState where
  recording : Bool
  micHeld : Bool
deriving Repr, DecidableEq

/-- Applying one handler. `startRecording` acquires the stream and starts the
recorder when permission is `granted` (on denial it only sets a status
message).  `stopRecording` checks `mediaRecorder && mediaRecorder.state !==
'inactive'` and then stops the recorder, whose `onstop` handler runs
`stream.getTracks().forEach(t => t.stop())`, releasing the microphone. -/
def applyHoldAction (granted : Bool) (s : RecState) : Option HoldAction → RecState
  | none => s
  | some .startRec => if granted then ⟨true, true⟩ else s
  | some .stopRec => if s.recording then ⟨false, false⟩ else s

/-- One `hold-speak` event processed through the registered listeners. -/
def stepHoldEvent (granted : Bool) (s : RecState) (e : HoldEvent) : RecState :=
  applyHoldAction granted s (holdSpeakHandler e)

/-- A sequence of `hold-speak` events processed in order. -/
def runHoldEvents (granted : Bool) (s : RecState) (es : List HoldEvent) : RecState :=
  es.foldl (stepHoldEvent granted) s

/-! ### Document upload -/

/-- The JSON body of a successful `POST /api/upload-documents` response. -/
structure UploadResponse where
  filename : String
  chunks_created : Nat
deriving Repr, DecidableEq

/-- The drop handler's extension filter `/\.(pdf|md|txt)$/i`: a
case-insensitive suffix test for `.pdf`, `.md` or `.txt`. -/
def validDocExt (name : String) : Bool :=
  strEndsWith (strToLower name) ".pdf" || strEndsWith (strToLower name) ".md"
    || strEndsWith (strToLower name) ".txt"

/-- Loop `for (const file of files) await uploadDoc(file)`: each file (identified
by name) is posted in order, one at a time; `uploadDoc` appends a
`(filename, chunks_created)` entry to the docs list on success and catches and
logs a failure, continuing with the next file.  Returns (requests posted in
order, docs-list entries appended in order). -/
def uploadAll (api : String → Except String UploadResponse) :
    List String → List String × List (String × Nat)
  | [] => ([], [])
  | f :: fs =>
      let rest := uploadAll api fs
      match api f with
      | .ok r => (f :: rest.1, (r.filename, r.chunks_created) :: rest.2)
      | .error _ => (f :: rest.1, rest.2)

/-- The drop handler: `Array.from(e.dataTransfer.files).filter(f =>
/\.(pdf|md|txt)$/i.test(f.name))`, then sequential upload. -/
def dropFlow (api : String → Except String UploadResponse)
    (names : List String) : List String × List (String × Nat) :=
  uploadAll api (names.filter validDocExt)

/-- The file-picker `change` handler: `Array.from(fileInput.files || [])`,
then sequential upload — no extension filter is applied on this path. -/
def pickerFlow (api : String → Except String UploadResponse)
    (names : List String) : List String × List (String × Nat) :=
  uploadAll api names

/-- A concrete always-succeeding upload endpoint (every file yields one chunk). -/
def constOkApi : String → Except String UploadResponse :=
  fun n => .ok ⟨n, 1⟩

/-! ### Session identifier -/

/-- The environment `getOrCreateSessionId` runs in: what
`localStorage.getItem('aria_session_id')` does (`.error` models a throw),
whether `crypto.randomUUID` is available and what it returns, whether
`localStorage.setItem` throws, and the `Date.now()` / `Math.random()`
material of the non-crypto fallback. -/
structure SessionEnv where
  readResult : Except Unit (Option String)
  cryptoAvail : Bool
  uuid : String
  writeThrows : Bool
  nowMs : Nat
  rand : String
deriving Repr

/-- The non-persistent fallback identifier
`'aria-' + Date.now() + '-' + Math.random().toString(36).slice(2, 11)`. -/
def fallbackSessionId (env : SessionEnv) : String :=
  "aria-" ++ toString env.nowMs ++ "-" ++ env.rand

/-- The result of `getOrCreateSessionId`: the identifier and whether it is
persisted in durable storage. -/
structure SessionIdResult where
  id : String
  persisted : Bool
deriving Repr, DecidableEq

/-- Function `getOrCreateSessionId()`: return the stored id when present; else, when
`crypto.randomUUID` exists, store and return a fresh UUID (a throwing
`setItem` lands in the catch, which returns the fallback id); else return the
fallback id.  A throwing `getItem` likewise lands in the catch. -/
def getOrCreateSessionId (env : SessionEnv) : SessionIdResult :=
  match env.readResult with
  | .error _ => ⟨fallbackSessionId env, false⟩
  | .ok stored =>
      if isTruthy stored then ⟨stored.getD "", true⟩
      else if env.cryptoAvail then
        if env.writeThrows then ⟨fallbackSessionId env, false⟩
        else ⟨env.uuid, true⟩
      else ⟨fallbackSessionId env, false⟩

/-- The body `apiChat` serializes: every chat request carries the module's
`sessionId` in its `session_id` field. -/
def chatRequestBody (sessionId message : String) (image : Option String) :
    ChatRequest :=
  ⟨sessionId, message, image⟩

end Aria

/-- Claim C3: for every troubleshooting document in the knowledge base store, the
front-matter field `has_images` is `true` if and only if the `image_urls`
sequence is non-empty. -/
theorem Aria.kb_has_images_iff_image_urls_nonempty
    (d : Aria.KBDoc) (hd : d ∈ Aria.knowledgeBase) :
    d.has_images = true ↔ d.image_urls ≠ [] := by
  fin_cases hd <;> simp [Aria.battery_drain_basics, Aria.battery_drain_advanced,
    Aria.wifi_connection_issues, Aria.wifi_slow_speeds, Aria.storage_full,
    Aria.storage_management, Aria.bluetooth_issues, Aria.screen_issues,
    Aria.overheating_causes, Aria.overheating_fixes, Aria.app_crashes_common,
    Aria.app_crashes_advanced]

/-- Witness for C3: the theorem applied to the concrete document `storage_full`,
which is in the store, has `has_images = true` and one image URL. -/
theorem Aria.kb_has_images_iff_image_urls_nonempty_witness :
    Aria.storage_full ∈ Aria.knowledgeBase ∧ Aria.storage_full.image_urls ≠ [] :=
  ⟨by simp [Aria.knowledgeBase],
   (Aria.kb_has_images_iff_image_urls_nonempty Aria.storage_full
      (by simp [Aria.knowledgeBase])).mp rfl⟩

/-- Claim C4: for every document in the knowledge base store and every filename listed
under its Related Issues section, a document with that filename exists in the
store (every related-issues link resolves). -/
theorem Aria.kb_related_issues_resolve
    (d : Aria.KBDoc) (hd : d ∈ Aria.knowledgeBase)
    (r : Aria.RelatedRef) (hr : r ∈ d.related_issues) :
    ∃ d' ∈ Aria.knowledgeBase, d'.filename = r.file := by
  fin_cases hd <;> fin_cases hr <;>
    first
      | exact ⟨Aria.battery_drain_basics, by simp [Aria.knowledgeBase], rfl⟩
      | exact ⟨Aria.battery_drain_advanced, by simp [Aria.knowledgeBase], rfl⟩
      | exact ⟨Aria.wifi_connection_issues, by simp [Aria.knowledgeBase], rfl⟩
      | exact ⟨Aria.wifi_slow_speeds, by simp [Aria.knowledgeBase], rfl⟩
      | exact ⟨Aria.storage_full, by simp [Aria.knowledgeBase], rfl⟩
      | exact ⟨Aria.storage_management, by simp [Aria.knowledgeBase], rfl⟩
      | exact ⟨Aria.bluetooth_issues, by simp [Aria.knowledgeBase], rfl⟩
      | exact ⟨Aria.screen_issues, by simp [Aria.knowledgeBase], rfl⟩
      | exact ⟨Aria.overheating_causes, by simp [Aria.knowledgeBase], rfl⟩
      | exact ⟨Aria.overheating_fixes, by simp [Aria.knowledgeBase], rfl⟩
      | exact ⟨Aria.app_crashes_common, by simp [Aria.knowledgeBase], rfl⟩
      | exact ⟨Aria.app_crashes_advanced, by simp [Aria.knowledgeBase], rfl⟩

/-- Witness for C4: the theorem applied to the concrete document
`app_crashes_common` and its first Related Issues entry
(`app_crashes_advanced.md`), which resolves in the store. -/
theorem Aria.kb_related_issues_resolve_witness :
    Aria.app_crashes_common ∈ Aria.knowledgeBase ∧
      ∃ d' ∈ Aria.knowledgeBase, d'.filename = "app_crashes_advanced.md" :=
  ⟨by simp [Aria.knowledgeBase],
   Aria.kb_related_issues_resolve Aria.app_crashes_common
      (by simp [Aria.knowledgeBase])
      ⟨"app_crashes_advanced.md", none⟩
      (by simp [Aria.app_crashes_common])⟩

/-- Claim C1: on page load, if the backend returns a non-empty history for the
stored session identifier, `init` renders exactly that history, in order (user
turns as user messages, other turns as assistant messages), with no opening
message appended; an empty or absent returned history renders exactly one
fixed opening message. -/
theorem Aria.init_renders_history_or_opening
    (h : List Aria.HistoryTurn) (hne : h ≠ []) :
    Aria.initTranscript (some h) = h.map Aria.renderTurn
    ∧ (Aria.initTranscript (some h)).length = h.length
    ∧ Aria.initTranscript (some []) = [Aria.openingMessage]
    ∧ Aria.initTranscript none = [Aria.openingMessage] := by
  have hlen : 0 < h.length := List.length_pos.mpr hne
  refine ⟨?_, ?_, rfl, rfl⟩
  · simp [Aria.initTranscript, hlen]
  · simp [Aria.initTranscript, hlen]

/-- Witness for C1: a concrete two-turn history replays verbatim with no
opening message, while the empty and absent histories yield exactly the
opening message. -/
theorem Aria.init_renders_history_or_opening_witness :
    Aria.initTranscript
        (some [⟨"user", "My phone is hot"⟩, ⟨"assistant", "Try closing apps."⟩])
      = [Aria.Msg.user "My phone is hot" none,
         Aria.Msg.aria "Try closing apps." [] none]
    ∧ Aria.initTranscript (some []) = [Aria.openingMessage]
    ∧ Aria.initTranscript none = [Aria.openingMessage] := by
  have h := Aria.init_renders_history_or_opening
    [⟨"user", "My phone is hot"⟩, ⟨"assistant", "Try closing apps."⟩] (by decide)
  exact ⟨by rw [h.1]; decide, h.2.2.1, h.2.2.2⟩

/-- Claim C2: for every send action, a fresh attached image becomes the
remembered image (it is the image the request carries, and it is what remains
remembered if the send fails); with no fresh image but a remembered one, the
request carries the remembered image; after a successful send the remembered
image is cleared, so a following send without a fresh image carries no image. -/
theorem Aria.remembered_image_protocol
    (sid text text2 : String) (fresh : Option String)
    (data data2 : Aria.ChatResponse) (err : String) (st : Aria.UiState)
    (hne : Aria.jsTrim text ≠ "") (hne2 : Aria.jsTrim text2 ≠ "") :
    (Aria.isTruthy fresh = true →
        (Aria.sendMessage sid text fresh (.ok data) st).2
            = some ⟨sid, Aria.jsTrim text, fresh⟩
        ∧ (Aria.sendMessage sid text fresh (.error err) st).1.remembered = fresh)
    ∧ (Aria.isTruthy fresh = false → Aria.isTruthy st.remembered = true →
        (Aria.sendMessage sid text fresh (.ok data) st).2
            = some ⟨sid, Aria.jsTrim text, st.remembered⟩)
    ∧ (Aria.sendMessage sid text fresh (.ok data) st).1.remembered = none
    ∧ (Aria.sendMessage sid text2 none (.ok data2)
          (Aria.sendMessage sid text fresh (.ok data) st).1).2
        = some ⟨sid, Aria.jsTrim text2, none⟩ := by
  have ht : (Aria.jsTrim text == "") = false := by
    simpa using hne
  have ht2 : (Aria.jsTrim text2 == "") = false := by
    simpa using hne2
  refine ⟨fun hf => ?_, fun hf hr => ?_, ?_, ?_⟩
  · constructor <;> simp [Aria.sendMessage, ht, hf, Aria.jsOr]
  · simp [Aria.sendMessage, ht, hf, hr, Aria.jsOr]
  · simp [Aria.sendMessage, ht]
  · simp [Aria.sendMessage, ht, ht2, Aria.jsOr, Aria.isTruthy]

/-- Witness for C2: with remembered image `"IMG1"` and no fresh image, the
request carries `"IMG1"`; after that successful send the remembered image is
cleared and a further send carries no image. -/
theorem Aria.remembered_image_protocol_witness :
    (Aria.sendMessage "s1" "follow-up" none
        (.ok ⟨some "ok", [], none, none⟩)
        ⟨some "IMG1", "", [], "", ⟨[], [], []⟩⟩).2
      = some ⟨"s1", "follow-up", some "IMG1"⟩
    ∧ (Aria.sendMessage "s1" "follow-up" none
        (.ok ⟨some "ok", [], none, none⟩)
        ⟨some "IMG1", "", [], "", ⟨[], [], []⟩⟩).1.remembered = none
    ∧ (Aria.sendMessage "s1" "and again" none
        (.ok ⟨some "ok", [], none, none⟩)
        (Aria.sendMessage "s1" "follow-up" none
          (.ok ⟨some "ok", [], none, none⟩)
          ⟨some "IMG1", "", [], "", ⟨[], [], []⟩⟩).1).2
      = some ⟨"s1", "and again", none⟩ := by
  have h := Aria.remembered_image_protocol "s1" "follow-up" "and again" none
    ⟨some "ok", [], none, none⟩ ⟨some "ok", [], none, none⟩ "err"
    ⟨some "IMG1", "", [], "", ⟨[], [], []⟩⟩ (by decide) (by decide)
  refine ⟨?_, h.2.2.1, ?_⟩
  · have := h.2.1 (by decide) (by decide)
    rw [this]; decide
  · have := h.2.2.2
    rw [this]; decide

/-- Claim C5: after recording stops and the buffered audio reaches the
transcription endpoint, a success with non-empty text submits that text as a
chat turn exactly as a typed-and-sent turn would be (the `onstop` handler
itself passes it to `sendMessage`, with no manual send), while a failure
surfaces the error status and leaves the controller idle (status cleared,
nothing submitted). -/
theorem Aria.transcription_submit_or_fail
    (t e : String) (ht : t ≠ "") (htrim : Aria.jsTrim t = t) :
    (Aria.onstopOutcome (.ok ⟨some t⟩)).1 = some t
    ∧ (∀ sid img r st, Aria.sendMessage sid t img r st
        = Aria.sendMessage sid (Aria.typedSendArg t) img r st)
    ∧ (Aria.onstopOutcome (.error e)).1 = none
    ∧ (Aria.onstopOutcome (.error e)).2
        = ["Transcribing...", "Transcription failed.", ""] := by
  refine ⟨?_, ?_, rfl, rfl⟩
  · simp [Aria.onstopOutcome, Aria.isTruthy, ht]
  · intro sid img r st
    rw [Aria.typedSendArg, htrim]

/-- Witness for C5: the scenario transcript "My battery drains fast" is
submitted automatically, and a transcription failure submits nothing while
writing the failure status before the line clears. -/
theorem Aria.transcription_submit_or_fail_witness :
    (Aria.onstopOutcome (.ok ⟨some "My battery drains fast"⟩)).1
      = some "My battery drains fast"
    ∧ (Aria.onstopOutcome (.error "network error")).1 = none
    ∧ (Aria.onstopOutcome (.error "network error")).2
        = ["Transcribing...", "Transcription failed.", ""] := by
  have h := Aria.transcription_submit_or_fail "My battery drains fast"
    "network error" (by decide) (by decide)
  exact ⟨h.1, h.2.2.1, h.2.2.2⟩

/-- Counterexample for C6: `setupListeners` binds no `touchcancel` listener on
the hold-to-speak control, so after a recording starts a touch-cancel event
leaves the recorder running and the microphone tracks live — the device is not
released on that exit path, contrary to the claim. -/
theorem Aria.mic_touchcancel_not_released :
    Aria.holdSpeakHandler .touchcancel = none
    ∧ (Aria.runHoldEvents true ⟨false, false⟩ [.touchstart, .touchcancel]).micHeld
        = true
    ∧ (Aria.runHoldEvents true ⟨false, false⟩ [.touchstart, .touchcancel]).recording
        = true := by
  decide

/-- Claim C6 (amended): while recording, the microphone is released (all
tracks stopped) on each exit path that has a bound listener — normal release
(`mouseup`, `touchend`) and the pointer leaving the control (`mouseleave`);
a `touchcancel` event has no bound listener and leaves recorder and microphone
state unchanged. -/
theorem Aria.mic_released_on_bound_exits
    (g : Bool) (s : Aria.RecState) (hs : s.recording = true) :
    (Aria.stepHoldEvent g s .mouseup).micHeld = false
    ∧ (Aria.stepHoldEvent g s .mouseleave).micHeld = false
    ∧ (Aria.stepHoldEvent g s .touchend).micHeld = false
    ∧ Aria.stepHoldEvent g s .touchcancel = s := by
  simp [Aria.stepHoldEvent, Aria.holdSpeakHandler, Aria.applyHoldAction, hs]

/-- Witness for C6 (amended): from the live recording state, each bound stop
event releases the microphone and touch-cancel changes nothing. -/
theorem Aria.mic_released_on_bound_exits_witness :
    (Aria.stepHoldEvent true ⟨true, true⟩ .mouseup).micHeld = false
    ∧ (Aria.stepHoldEvent true ⟨true, true⟩ .mouseleave).micHeld = false
    ∧ (Aria.stepHoldEvent true ⟨true, true⟩ .touchend).micHeld = false
    ∧ Aria.stepHoldEvent true ⟨true, true⟩ .touchcancel = ⟨true, true⟩ :=
  Aria.mic_released_on_bound_exits true ⟨true, true⟩ (by decide)

/-- Helper: the sequential upload loop posts every file, in order, regardless
of per-file failures (a failing upload is caught and logged, not rethrown). -/
theorem Aria.uploadAll_requests
    (api : String → Except String Aria.UploadResponse) (names : List String) :
    (Aria.uploadAll api names).1 = names := by
  induction names with
  | nil => rfl
  | cons f fs ih => cases hapi : api f <;> simp [Aria.uploadAll, hapi, ih]

/-- Helper: the docs-list entries appended by the upload loop are exactly the
successful responses, in order. -/
theorem Aria.uploadAll_listed
    (api : String → Except String Aria.UploadResponse) (names : List String) :
    (Aria.uploadAll api names).2
      = names.filterMap (fun n =>
          match api n with
          | .ok r => some (r.filename, r.chunks_created)
          | .error _ => none) := by
  induction names with
  | nil => rfl
  | cons f fs ih =>
      cases hapi : api f <;> simp [Aria.uploadAll, hapi, ih, List.filterMap_cons]

/-- Counterexample for C7: a file selected via the file picker is not
validated by extension — the `change` handler uploads `fileInput.files`
unfiltered, so a file whose name fails the extension test is still submitted. -/
theorem Aria.picker_upload_skips_validation :
    Aria.validDocExt "screenshot.exe" = false
    ∧ (Aria.pickerFlow Aria.constOkApi ["screenshot.exe"]).1
        = ["screenshot.exe"] := by
  decide

/-- Claim C7 (amended): files dropped onto the drop zone are validated by
extension (document-like formats only) before submission, while files selected
via the file picker are submitted without client-side extension validation; on
both paths the files are uploaded sequentially, one at a time, in selection
order, and a failure on one file is logged and does not prevent the upload of
subsequent files (every file is still posted and every successful upload is
listed). -/
theorem Aria.upload_flows_sequential_and_fault_isolated
    (api : String → Except String Aria.UploadResponse) (names : List String) :
    (Aria.dropFlow api names).1 = names.filter Aria.validDocExt
    ∧ (Aria.pickerFlow api names).1 = names
    ∧ (Aria.dropFlow api names).2
        = (names.filter Aria.validDocExt).filterMap (fun n =>
            match api n with
            | .ok r => some (r.filename, r.chunks_created)
            | .error _ => none)
    ∧ (Aria.pickerFlow api names).2
        = names.filterMap (fun n =>
            match api n with
            | .ok r => some (r.filename, r.chunks_created)
            | .error _ => none) :=
  ⟨Aria.uploadAll_requests api _, Aria.uploadAll_requests api _,
   Aria.uploadAll_listed api _, Aria.uploadAll_listed api _⟩

/-- Claim C8: when durable local storage throws on read, or on write while
storing a fresh UUID, `getOrCreateSessionId` still produces a session
identifier — the freshly generated non-persistent `aria-...` fallback, which
is a non-empty string — and every chat request body still carries that
identifier in its `session_id` field. -/
theorem Aria.session_id_survives_storage_failure
    (env : Aria.SessionEnv) (msg : String) (img : Option String) :
    (env.readResult = .error () →
        Aria.getOrCreateSessionId env = ⟨Aria.fallbackSessionId env, false⟩)
    ∧ (∀ stored, env.readResult = .ok stored → Aria.isTruthy stored = false →
        env.cryptoAvail = true → env.writeThrows = true →
        Aria.getOrCreateSessionId env = ⟨Aria.fallbackSessionId env, false⟩)
    ∧ 0 < (Aria.fallbackSessionId env).length
    ∧ (Aria.chatRequestBody (Aria.getOrCreateSessionId env).id msg img).session_id
        = (Aria.getOrCreateSessionId env).id := by
  refine ⟨fun hr => ?_, fun stored hr hs hc hw => ?_, ?_, rfl⟩
  · simp [Aria.getOrCreateSessionId, hr]
  · simp [Aria.getOrCreateSessionId, hr, hs, hc, hw]
  · simp [Aria.fallbackSessionId, String.length_append]
    exact Or.inl (Or.inl (Or.inl (by decide)))

/-- Witness for C8: in an environment whose storage read throws, the produced
identifier is the concrete non-persistent fallback `aria-1234-k3j9q2f8h`, and
the chat body built from it carries it as `session_id`. -/
theorem Aria.session_id_survives_storage_failure_witness :
    Aria.getOrCreateSessionId ⟨.error (), true, "uuid-1", false, 1234, "k3j9q2f8h"⟩
      = ⟨"aria-1234-k3j9q2f8h", false⟩
    ∧ (Aria.chatRequestBody
          (Aria.getOrCreateSessionId
            ⟨.error (), true, "uuid-1", false, 1234, "k3j9q2f8h"⟩).id
          "hello" none).session_id
        = (Aria.getOrCreateSessionId
            ⟨.error (), true, "uuid-1", false, 1234, "k3j9q2f8h"⟩).id := by
  have h := Aria.session_id_survives_storage_failure
    ⟨.error (), true, "uuid-1", false, 1234, "k3j9q2f8h"⟩ "hello" none
  exact ⟨by rw [h.1 rfl]; decide, h.2.2.2⟩

/-- Claim C9: on a successful chat response the controller appends the
assistant text with the cited sources rendered in order (a source value that
does not start with `"http"` becomes an inert `"#"` pill), and the process
panel shows every step annotation prefixed by its human-readable phase label
(`"Think: "`, `"Act: "`, `"Observe: "`), an `observe`-tagged entry rendering
with the `"Observe: "` prefix. -/
theorem Aria.chat_success_rendering
    (sid text : String) (data : Aria.ChatResponse) (st : Aria.UiState)
    (steps : List Aria.StepEntry)
    (hne : Aria.jsTrim text ≠ "") (hsteps : data.steps = some steps) :
    (Aria.sendMessage sid text none (.ok data) st).1.transcript
      = st.transcript
        ++ [Aria.Msg.user (Aria.jsTrim text) none,
            Aria.Msg.aria (Aria.jsOrElse data.text "")
              (data.sources.map Aria.renderPill)
              (Aria.jsOr data.audio_base64 none)]
    ∧ (∀ s, Aria.strStartsWith s "http" = false → Aria.renderPill s = ⟨"#", s⟩)
    ∧ (Aria.sendMessage sid text none (.ok data) st).1.panel.processSteps
        = steps.map Aria.renderStep
    ∧ Aria.phasePrefix (some "think") = "Think: "
    ∧ Aria.phasePrefix (some "act") = "Act: "
    ∧ (∀ tx, Aria.renderStep ⟨some "observe", some tx⟩ = "Observe: " ++ tx) := by
  have ht : (Aria.jsTrim text == "") = false := by simpa using hne
  refine ⟨?_, fun s hs => ?_, ?_, rfl, rfl, fun tx => ?_⟩
  · simp [Aria.sendMessage, ht, Aria.isTruthy]
  · simp [Aria.renderPill, hs]
  · simp [Aria.sendMessage, Aria.updateContext, ht, hsteps]
    split <;> split <;> rfl
  · by_cases htx : tx = ""
    · subst htx; rfl
    · simp [Aria.renderStep, Aria.phasePrefix, Aria.jsOrElse, Aria.isTruthy, htx]

/-- Witness for C9: the spec scenario — response text "Try enabling Low Power
Mode.", one non-HTTP source `battery_drain_basics.md` rendered as an inert
pill, and one `observe` step rendered "Observe: battery drops quickly". -/
theorem Aria.chat_success_rendering_witness :
    (Aria.sendMessage "s1" "Battery drains fast" none
        (.ok ⟨some "Try enabling Low Power Mode.", ["battery_drain_basics.md"],
              some [⟨some "observe", some "battery drops quickly"⟩], none⟩)
        ⟨none, "", [], "", ⟨[], [], []⟩⟩).1.transcript
      = [Aria.Msg.user "Battery drains fast" none,
         Aria.Msg.aria "Try enabling Low Power Mode."
           [⟨"#", "battery_drain_basics.md"⟩] none]
    ∧ (Aria.sendMessage "s1" "Battery drains fast" none
        (.ok ⟨some "Try enabling Low Power Mode.", ["battery_drain_basics.md"],
              some [⟨some "observe", some "battery drops quickly"⟩], none⟩)
        ⟨none, "", [], "", ⟨[], [], []⟩⟩).1.panel.processSteps
      = ["Observe: battery drops quickly"] := by
  have h := Aria.chat_success_rendering "s1" "Battery drains fast"
    ⟨some "Try enabling Low Power Mode.", ["battery_drain_basics.md"],
      some [⟨some "observe", some "battery drops quickly"⟩], none⟩
    ⟨none, "", [], "", ⟨[], [], []⟩⟩
    [⟨some "observe", some "battery drops quickly"⟩] (by decide) rfl
  exact ⟨by rw [h.1]; decide, by rw [h.2.2.1]; decide⟩

/-- Claim C10: a call to `sendMessage` whose text is empty or whitespace-only
and which attaches no image is a no-op — no HTTP request is issued and the
controller state (remembered image, input field, transcript, status, context
panel) is unchanged. -/
theorem Aria.blank_send_is_noop
    (sid text : String) (r : Except String Aria.ChatResponse)
    (st : Aria.UiState) (hblank : Aria.jsTrim text = "") :
    Aria.sendMessage sid text none r st = (st, none) := by
  simp [Aria.sendMessage, hblank, Aria.isTruthy]

/-- Witness for C10: sending the whitespace-only text `"   "` with no image
leaves a concrete state untouched and posts nothing. -/
theorem Aria.blank_send_is_noop_witness :
    Aria.jsTrim "   " = ""
    ∧ Aria.sendMessage "s1" "   " none (.error "network down")
        ⟨some "IMG1", "draft", [Aria.openingMessage], "", ⟨[], [], []⟩⟩
      = (⟨some "IMG1", "draft", [Aria.openingMessage], "", ⟨[], [], []⟩⟩, none) :=
  ⟨by decide,
   Aria.blank_send_is_noop "s1" "   " (.error "network down")
     ⟨some "IMG1", "draft", [Aria.openingMessage], "", ⟨[], [], []⟩⟩ (by decide)⟩
